import Mathlib

/-!
Verification development for the wedding RSVP backend (`main.py`), a FastAPI
microservice that accepts an RSVP as a JSON POST body, authenticates to
Google Sheets, and appends one row per submission.

The embedding below translates the request-handling pipeline of `main.py`
into executable Lean definitions:

* JSON values and bodies are modelled as `JVal` and association lists.
* Pydantic v2 validation of the `RSVPData` model (lax mode, as used by the
  declared field types `str`, `Optional[str]`, `Optional[bool]`) is
  `parseRSVPData`.
* Environment/configuration and the filesystem are an explicit `Env` record;
  the gspread / google-auth calls are oracles inside `Env` and `Backend`.
* `resolveCredentialsPath`, `getGoogleClient`, `submitRSVP` and
  `handleRequest` mirror `_resolve_credentials_path`, `get_google_client`,
  `submit_rsvp` and the FastAPI dependency pipeline (APIKeyHeader with
  `auto_error=True`, then `verify_api_key`, then body validation, then the
  handler).
* Wall-clock time (`datetime.utcnow().isoformat()`) is passed in as the
  `now : String` parameter.

Responses are either the handler's success dict
`{"success": true, "message": ..., "details": ...}` or a FastAPI
`HTTPException` (an HTTP error status plus a `detail` string, rendered by
FastAPI as a JSON body `{"detail": ...}`).
-/

/-- A JSON value, restricted to the shapes relevant to the RSVP body:
null, booleans, integers and strings. -/
inductive JVal where
  | jnull : JVal
  | jbool : Bool → JVal
  | jnum : Int → JVal
  | jstr : String → JVal
deriving DecidableEq, Repr

/-- A JSON object body: ordered key/value pairs, looked up by first match. -/
abbrev JBody := List (String × JVal)

/-- The `RSVPData` pydantic model of `main.py`: one required string and nine
optional fields (three strings, six booleans), all defaulting to `None`. -/
structure RSVPData where
  full_name : String
  dietary_requirements : Option String
  rehearsal_dinner : Option Bool
  ceremony : Option Bool
  brunch : Option Bool
  plus_one_name : Option String
  plus_one_dietary_requirements : Option String
  plus_one_rehearsal_dinner : Option Bool
  plus_one_ceremony : Option Bool
  plus_one_brunch : Option Bool
deriving DecidableEq, Repr

/-- Pydantic v2 lax validation of a required `str` field: only a JSON string
is accepted; a missing key is a `Field required` error, any other JSON type
is a type error. -/
def validateReqStr (v : Option JVal) : Except String String :=
  match v with
  | some (JVal.jstr s) => Except.ok s
  | some _ => Except.error "Input should be a valid string"
  | none => Except.error "Field required"

/-- Pydantic v2 lax validation of an `Optional[str]` field with default
`None`: missing or null gives `None`, a JSON string is taken verbatim, any
other JSON type is a type error. -/
def validateOptStr (v : Option JVal) : Except String (Option String) :=
  match v with
  | none => Except.ok none
  | some JVal.jnull => Except.ok none
  | some (JVal.jstr s) => Except.ok (some s)
  | some _ => Except.error "Input should be a valid string"

/-- Lowercasing a string character by character (structural version of
`str.lower()`, used so the table below evaluates by reduction). -/
def asciiLower (s : String) : String := ⟨s.data.map Char.toLower⟩

/-- Pydantic-core's lax string-to-bool coercion table (case-insensitive). -/
def strAsBool (s : String) : Option Bool :=
  let t := asciiLower s
  if t = "0" ∨ t = "off" ∨ t = "f" ∨ t = "false" ∨ t = "n" ∨ t = "no" then
    some false
  else if t = "1" ∨ t = "on" ∨ t = "t" ∨ t = "true" ∨ t = "y" ∨ t = "yes" then
    some true
  else
    none

/-- Pydantic v2 lax validation of an `Optional[bool]` field with default
`None`: missing or null gives `None`; a JSON boolean is taken directly; a
string goes through the coercion table (unrecognised strings, including the
empty string, are a validation error); an integer must be 0 or 1. -/
def validateOptBool (v : Option JVal) : Except String (Option Bool) :=
  match v with
  | none => Except.ok none
  | some JVal.jnull => Except.ok none
  | some (JVal.jbool b) => Except.ok (some b)
  | some (JVal.jstr s) =>
    match strAsBool s with
    | some b => Except.ok (some b)
    | none => Except.error "Input should be a valid boolean, unable to interpret input"
  | some (JVal.jnum n) =>
    if n = 0 then Except.ok (some false)
    else if n = 1 then Except.ok (some true)
    else Except.error "Input should be a valid boolean, unable to interpret input"

/-- The ten field keys declared by the `RSVPData` model. Keys outside this
list are ignored by pydantic (default `extra="ignore"`). -/
def declaredKeys : List String :=
  ["full_name", "dietary_requirements", "rehearsal_dinner", "ceremony",
   "brunch", "plus_one_name", "plus_one_dietary_requirements",
   "plus_one_rehearsal_dinner", "plus_one_ceremony", "plus_one_brunch"]

/-- Pydantic validation of a JSON body against `RSVPData`: each declared
field is looked up by its key and validated by type; undeclared keys are
ignored. A failed validation is FastAPI's 422 path. -/
def parseRSVPData (body : JBody) : Except String RSVPData := do
  let fn ← validateReqStr (body.lookup "full_name")
  let dr ← validateOptStr (body.lookup "dietary_requirements")
  let rd ← validateOptBool (body.lookup "rehearsal_dinner")
  let ce ← validateOptBool (body.lookup "ceremony")
  let br ← validateOptBool (body.lookup "brunch")
  let p1n ← validateOptStr (body.lookup "plus_one_name")
  let p1d ← validateOptStr (body.lookup "plus_one_dietary_requirements")
  let p1rd ← validateOptBool (body.lookup "plus_one_rehearsal_dinner")
  let p1ce ← validateOptBool (body.lookup "plus_one_ceremony")
  let p1br ← validateOptBool (body.lookup "plus_one_brunch")
  pure ⟨fn, dr, rd, ce, br, p1n, p1d, p1rd, p1ce, p1br⟩

/-- `yes_no` of `submit_rsvp`: `True` → `"Yes"`, `False` → `"No"`,
`None` → `""`. -/
def yes_no (val : Option Bool) : String :=
  match val with
  | some true => "Yes"
  | some false => "No"
  | none => ""

/-- Python's `x or ""` applied to an optional string: `None` and the empty
string (falsy) give `""`, any other string is returned unchanged. -/
def pyOrEmpty (x : Option String) : String :=
  match x with
  | none => ""
  | some s => if s.length = 0 then "" else s

/-- The row built by `submit_rsvp`: the ten mapped record fields followed by
the timestamp (`datetime.utcnow().isoformat()`, passed in as `now`). -/
def buildRow (data : RSVPData) (now : String) : List String :=
  [data.full_name,
   pyOrEmpty data.dietary_requirements,
   yes_no data.rehearsal_dinner,
   yes_no data.ceremony,
   yes_no data.brunch,
   pyOrEmpty data.plus_one_name,
   pyOrEmpty data.plus_one_dietary_requirements,
   yes_no data.plus_one_rehearsal_dinner,
   yes_no data.plus_one_ceremony,
   yes_no data.plus_one_brunch,
   now]

/-- Hard-coded default credentials filename (`DEFAULT_SERVICE_ACCOUNT_FILE`). -/
def DEFAULT_SERVICE_ACCOUNT_FILE : String := "service_account_rsvp.json"

/-- Process environment and ambient effects read by `main.py`: the two
credential path variables, the sheet names (with their defaults applied, as
`os.getenv` with a default does), the filesystem (`os.path.isfile`), and the
two authentication oracles. `saAuth p = some c` models
`gspread.service_account(filename=p, ...)` returning client `c`, `none`
models it raising; `adcAuth` likewise models `google.auth.default` +
`gspread.authorize`. Clients are opaque numeric handles. -/
structure Env where
  googleAppCreds : Option String
  serviceAccountFileVar : Option String
  spreadsheetName : String
  worksheetName : String
  isFile : String → Bool
  saAuth : String → Option Nat
  adcAuth : Option Nat

/-- Python truthiness of `os.getenv`: unset and empty-string are falsy. -/
def pyTruthy (x : Option String) : Bool :=
  match x with
  | none => false
  | some s => s.length != 0

/-- Python's `a or b` on two `os.getenv` results. -/
def pyOrOpt (a b : Option String) : Option String :=
  if pyTruthy a then a else b

/-- `_resolve_credentials_path`: the explicit env path
(`GOOGLE_APPLICATION_CREDENTIALS` or `SERVICE_ACCOUNT_FILE`) if it is truthy
and an existing file, else the default local file if it exists, else
nothing. -/
def resolveCredentialsPath (env : Env) : Option String :=
  let envPath := pyOrOpt env.googleAppCreds env.serviceAccountFileVar
  if pyTruthy envPath ∧ env.isFile (envPath.getD "") then envPath
  else if env.isFile DEFAULT_SERVICE_ACCOUNT_FILE then some DEFAULT_SERVICE_ACCOUNT_FILE
  else none

/-- One authentication attempt actually performed by `get_google_client`. -/
inductive AuthAttempt where
  | fileAuth : String → AuthAttempt
  | adc : AuthAttempt
deriving DecidableEq, Repr

/-- The remediation hint raised by `get_google_client` when both the file
strategy and ADC fail. -/
def authHint : String :=
  "No credentials file found and ADC failed. In Cloud Run, mount your Secret at e.g. /secrets/rsvp/service_account_rsvp.json and set GOOGLE_APPLICATION_CREDENTIALS=/secrets/rsvp/service_account_rsvp.json. Locally, keep service_account_rsvp.json in the project root."

/-- `get_google_client`: try the resolved credentials file once (if any);
on its absence or failure fall back to Application Default Credentials; if
that also fails, raise `HTTPException(500, "Google Sheets authentication
failed. " + hint)`. Returns the result together with the list of
authentication attempts actually made. -/
def getGoogleClient (env : Env) : Except String Nat × List AuthAttempt :=
  match resolveCredentialsPath env with
  | some p =>
    match env.saAuth p with
    | some c => (Except.ok c, [AuthAttempt.fileAuth p])
    | none =>
      match env.adcAuth with
      | some c => (Except.ok c, [AuthAttempt.fileAuth p, AuthAttempt.adc])
      | none => (Except.error authHint, [AuthAttempt.fileAuth p, AuthAttempt.adc])
  | none =>
    match env.adcAuth with
    | some c => (Except.ok c, [AuthAttempt.adc])
    | none => (Except.error authHint, [AuthAttempt.adc])

/-- Outcome of a gspread lookup call (`client.open`, `client.open_by_key`,
`sheet.worksheet`): a handle, the dedicated not-found exception, or any
other exception with its message. -/
inductive OpenRes where
  | found : Nat → OpenRes
  | notFound : OpenRes
  | err : String → OpenRes
deriving DecidableEq, Repr

/-- The gspread backend as an oracle. `openByName` is `client.open(title)`;
`openById` is `client.open_by_key(key)` (available in the gspread API,
whether or not the code calls it); `worksheet` is `sheet.worksheet(title)`;
`appendRow w r = none` models a successful `worksheet.append_row(row)`,
`some m` models it raising with message `m`. -/
structure Backend where
  openByName : Nat → String → OpenRes
  openById : Nat → String → OpenRes
  worksheet : Nat → String → OpenRes
  appendRow : Nat → List String → Option String

/-- A gspread call performed by the handler. -/
inductive BCall where
  | openName : String → BCall
  | openId : String → BCall
  | wsOpen : String → BCall
  | append : List String → BCall
deriving DecidableEq, Repr

/-- The HTTP response produced for a request: either the handler's success
dict `{"success": true, "message": m, "details": d}`, or a FastAPI
`HTTPException` rendered as status `s` with body `{"detail": t}`. -/
inductive Response where
  | success : String → RSVPData → Response
  | httpError : Nat → String → Response
deriving DecidableEq, Repr

/-- Everything observable about one request: the response, the rows actually
appended to the worksheet, the gspread calls made and the authentication
attempts made. -/
structure SubmitOut where
  response : Response
  appended : List (List String)
  calls : List BCall
  authCalls : List AuthAttempt
deriving DecidableEq, Repr

/-- The ASCII single-quote character, written via its code point. -/
def squote : String := String.singleton (Char.ofNat 39)

/-- Wrap a string in single quotes, as the f-strings of `main.py` do around
the spreadsheet and worksheet names. -/
def q (s : String) : String := squote ++ s ++ squote

/-- `str(HTTPException)` in Starlette: `f"{status_code}: {detail}"`. This is
what `except Exception as e: ... detail=str(e)` sees when the exception it
caught is itself an `HTTPException` (as the one raised by
`get_google_client` is). -/
def httpExcStr (status : Nat) (detail : String) : String :=
  s!"{status}: {detail}"

/-- The body of `submit_rsvp` (after dependency checks and body validation):
authenticate, `client.open(SPREADSHEET_NAME)`, `sheet.worksheet
(WORKSHEET_NAME)`, build the row, `append_row`. The `try/except` maps
`SpreadsheetNotFound` to 404, `WorksheetNotFound` to 404, and any other
exception — including the `HTTPException(500, ...)` raised inside the `try`
by `get_google_client` — to `HTTPException(500, str(e))`. -/
def submitRSVP (env : Env) (be : Backend) (data : RSVPData) (now : String) : SubmitOut :=
  let auth := getGoogleClient env
  match auth.1 with
  | Except.error hint =>
    { response := Response.httpError 500
        (httpExcStr 500 ("Google Sheets authentication failed. " ++ hint)),
      appended := [], calls := [], authCalls := auth.2 }
  | Except.ok client =>
    match be.openByName client env.spreadsheetName with
    | OpenRes.notFound =>
      { response := Response.httpError 404
          (s!"Spreadsheet {q env.spreadsheetName} not found. Check sharing and name."),
        appended := [], calls := [BCall.openName env.spreadsheetName],
        authCalls := auth.2 }
    | OpenRes.err m =>
      { response := Response.httpError 500 m,
        appended := [], calls := [BCall.openName env.spreadsheetName],
        authCalls := auth.2 }
    | OpenRes.found sheet =>
      match be.worksheet sheet env.worksheetName with
      | OpenRes.notFound =>
        { response := Response.httpError 404
            (s!"Worksheet {q env.worksheetName} not found in spreadsheet."),
          appended := [],
          calls := [BCall.openName env.spreadsheetName, BCall.wsOpen env.worksheetName],
          authCalls := auth.2 }
      | OpenRes.err m =>
        { response := Response.httpError 500 m,
          appended := [],
          calls := [BCall.openName env.spreadsheetName, BCall.wsOpen env.worksheetName],
          authCalls := auth.2 }
      | OpenRes.found ws =>
        let row := buildRow data now
        match be.appendRow ws row with
        | some m =>
          { response := Response.httpError 500 m,
            appended := [],
            calls := [BCall.openName env.spreadsheetName,
                      BCall.wsOpen env.worksheetName, BCall.append row],
            authCalls := auth.2 }
        | none =>
          { response := Response.success "RSVP submitted successfully!" data,
            appended := [row],
            calls := [BCall.openName env.spreadsheetName,
                      BCall.wsOpen env.worksheetName, BCall.append row],
            authCalls := auth.2 }

/-- Body validation followed by the handler: a pydantic failure is FastAPI's
`422 Unprocessable Entity` response (its `detail` abstracted here to the
first error message); a valid body runs `submit_rsvp`. -/
def bodyPipeline (env : Env) (be : Backend) (body : JBody) (now : String) : SubmitOut :=
  match parseRSVPData body with
  | Except.error m =>
    { response := Response.httpError 422 m, appended := [], calls := [], authCalls := [] }
  | Except.ok data => submitRSVP env be data now

/-- The full request pipeline for `POST /rsvp`. `validKey` is the
`VALID_API_KEY` environment variable (`none` when unset); `header` is the
`X-API-Key` request header. FastAPI first runs the route dependency
`verify_api_key`, whose `Security(api_key_header)` parameter is an
`APIKeyHeader` with `auto_error=True`: a missing (or empty, hence falsy)
header raises `403 "Not authenticated"` unconditionally. Then
`verify_api_key` itself passes when `VALID_API_KEY is None`, and otherwise
rejects a non-matching key with `403 "Invalid API key"`. Only then is the
body validated and the handler run. -/
def handleRequest (validKey : Option String) (header : Option String)
    (env : Env) (be : Backend) (body : JBody) (now : String) : SubmitOut :=
  match header with
  | none =>
    { response := Response.httpError 403 "Not authenticated",
      appended := [], calls := [], authCalls := [] }
  | some k =>
    if k.length = 0 then
      { response := Response.httpError 403 "Not authenticated",
        appended := [], calls := [], authCalls := [] }
    else
      match validKey with
      | none => bodyPipeline env be body now
      | some vk =>
        if k ≠ vk then
          { response := Response.httpError 403 "Invalid API key",
            appended := [], calls := [], authCalls := [] }
        else bodyPipeline env be body now

/-- The content type of every response the service produces: both the
handler's returned dict and FastAPI's `HTTPException` handler are rendered
as `JSONResponse`, whose media type is `application/json`. -/
def responseContentType (_ : Response) : String := "application/json"

/-- The row as §4.3 of the spec words it: the ten mapped fields in order,
with the timestamp as the final column, `yn` mapping the tri-state boolean
and absent optional strings producing empty cells. Stated from the spec, to
be compared with `buildRow` (from the source). -/
def specRow (data : RSVPData) (now : String) : List String :=
  [data.full_name,
   data.dietary_requirements.getD "",
   yes_no data.rehearsal_dinner,
   yes_no data.ceremony,
   yes_no data.brunch,
   data.plus_one_name.getD "",
   data.plus_one_dietary_requirements.getD "",
   yes_no data.plus_one_rehearsal_dinner,
   yes_no data.plus_one_ceremony,
   yes_no data.plus_one_brunch,
   now]

/-- Demo environment: no credential files anywhere, ADC succeeds with
client 1. Used to instantiate theorems at concrete inputs. -/
def demoEnv : Env :=
  { googleAppCreds := none, serviceAccountFileVar := none,
    spreadsheetName := "RSVP Responses", worksheetName := "Responses",
    isFile := fun _ => false, saAuth := fun _ => none, adcAuth := some 1 }

/-- Demo backend on which every lookup and append succeeds. -/
def demoBackend : Backend :=
  { openByName := fun _ _ => OpenRes.found 10,
    openById := fun _ _ => OpenRes.found 11,
    worksheet := fun _ _ => OpenRes.found 20,
    appendRow := fun _ _ => none }

/-- Demo record: primary guest attending the ceremony, not brunch. -/
def demoData : RSVPData :=
  ⟨"Jane Doe", none, none, some true, some false, none, none, none, none, none⟩

/-- Backend on which the spreadsheet name lookup fails with
`SpreadsheetNotFound` while an ID lookup would succeed. -/
def nfBackend : Backend :=
  { openByName := fun _ _ => OpenRes.notFound,
    openById := fun _ _ => OpenRes.found 99,
    worksheet := fun _ _ => OpenRes.found 20,
    appendRow := fun _ _ => none }

/-- Environment in which the explicit credentials path `p` exists but
authenticating with it fails, the default local credentials file exists and
authenticating with it would succeed (client 1), and ADC succeeds with
client 2. -/
def env5 : Env :=
  { googleAppCreds := some "p", serviceAccountFileVar := none,
    spreadsheetName := "RSVP Responses", worksheetName := "Responses",
    isFile := fun s => s == "p" || s == "service_account_rsvp.json",
    saAuth := fun s => if s == "p" then none else some 1,
    adcAuth := some 2 }

theorem pyOrEmpty_eq_getD (x : Option String) : pyOrEmpty x = x.getD "" := by
  cases x with
  | none => rfl
  | some s =>
    simp only [pyOrEmpty, Option.getD]
    by_cases h : s.length = 0
    · have hd : s.data = [] := List.length_eq_zero.mp h
      have : s = "" := by
        cases s
        simp_all [String.data]
      simp [h, this]
    · simp [h]

/-- C4: the appended row of a successfully processed record is exactly the
fixed ordered ten-field list followed by the timestamp as the final column,
with `yn` mapping true to "Yes", false to "No" and unspecified to "", and
absent optional strings producing empty cells. -/
theorem C4_row_shape :
    (∀ data now, buildRow data now = specRow data now) ∧
    yes_no (some true) = "Yes" ∧ yes_no (some false) = "No" ∧ yes_no none = "" ∧
    (∀ env be data now m d,
      (submitRSVP env be data now).response = Response.success m d →
      (submitRSVP env be data now).appended = [specRow data now] ∧ d = data) := by
  have hrow : ∀ data now, buildRow data now = specRow data now := by
    intro data now
    simp [buildRow, specRow, pyOrEmpty_eq_getD]
  refine ⟨hrow, rfl, rfl, rfl, ?_⟩
  intro env be data now m d h
  rcases hc : (getGoogleClient env).1 with hint | client
  · simp [submitRSVP, hc] at h
  · rcases ho : be.openByName client env.spreadsheetName with sheet | _ | msg
    · rcases hw : be.worksheet sheet env.worksheetName with ws | _ | msg2
      · rcases ha : be.appendRow ws (buildRow data now) with _ | msg3
        · refine ⟨?_, ?_⟩
          · have ha2 : be.appendRow ws (specRow data now) = none := by
              rw [← hrow data now]; exact ha
            simp [submitRSVP, hc, ho, hw, ha2, hrow]
          · simp [submitRSVP, hc, ho, hw, ha] at h
            exact h.2.symm
        · simp [submitRSVP, hc, ho, hw, ha] at h
      · simp [submitRSVP, hc, ho, hw] at h
      · simp [submitRSVP, hc, ho, hw] at h
    · simp [submitRSVP, hc, ho] at h
    · simp [submitRSVP, hc, ho] at h

/-- C4 witness: at the demo inputs the handler succeeds and appends exactly
the spec-shaped row. -/
theorem C4_row_shape_witness :
    (submitRSVP demoEnv demoBackend demoData "2026-10-12T00:00:00").appended
      = [specRow demoData "2026-10-12T00:00:00"] :=
  (C4_row_shape.2.2.2.2 demoEnv demoBackend demoData "2026-10-12T00:00:00"
    "RSVP submitted successfully!" demoData rfl).1

theorem validateOptBool_none_eq : validateOptBool none = Except.ok none := rfl

/-- C3 counterexample: the claim says an empty boolean-flag literal decodes
to unspecified and no literal ever raises an error; in the code an empty
string is a pydantic validation error (the request is rejected), and the
literal "yes" decodes to true rather than unspecified. -/
theorem C3_counterexample :
    parseRSVPData [("full_name", JVal.jstr "Jane"), ("ceremony", JVal.jstr "")]
      = Except.error "Input should be a valid boolean, unable to interpret input" ∧
    parseRSVPData [("full_name", JVal.jstr "Jane"), ("ceremony", JVal.jstr "yes")]
      = Except.ok ⟨"Jane", none, none, some true, none, none, none, none, none, none⟩ := by
  exact ⟨rfl, rfl⟩

/-- C3 (amended): each of the six boolean-flag fields is decoded
independently by the same pydantic lax boolean validator, which maps JSON
booleans directly, missing or null values to unspecified, the recognised
literals "1"/"on"/"t"/"true"/"y"/"yes" (case-insensitively) to true and
"0"/"off"/"f"/"false"/"n"/"no" to false, integers 0 and 1 to false and
true, and rejects every other value (including the empty string) with a
validation error rather than treating it as unspecified. -/
theorem C3_bool_decoding :
    (∀ v,
      parseRSVPData [("full_name", JVal.jstr "N"), ("rehearsal_dinner", v)]
        = (validateOptBool (some v)).map
            (fun b => ⟨"N", none, b, none, none, none, none, none, none, none⟩) ∧
      parseRSVPData [("full_name", JVal.jstr "N"), ("ceremony", v)]
        = (validateOptBool (some v)).map
            (fun b => ⟨"N", none, none, b, none, none, none, none, none, none⟩) ∧
      parseRSVPData [("full_name", JVal.jstr "N"), ("brunch", v)]
        = (validateOptBool (some v)).map
            (fun b => ⟨"N", none, none, none, b, none, none, none, none, none⟩) ∧
      parseRSVPData [("full_name", JVal.jstr "N"), ("plus_one_rehearsal_dinner", v)]
        = (validateOptBool (some v)).map
            (fun b => ⟨"N", none, none, none, none, none, none, b, none, none⟩) ∧
      parseRSVPData [("full_name", JVal.jstr "N"), ("plus_one_ceremony", v)]
        = (validateOptBool (some v)).map
            (fun b => ⟨"N", none, none, none, none, none, none, none, b, none⟩) ∧
      parseRSVPData [("full_name", JVal.jstr "N"), ("plus_one_brunch", v)]
        = (validateOptBool (some v)).map
            (fun b => ⟨"N", none, none, none, none, none, none, none, none, b⟩)) ∧
    validateOptBool none = Except.ok none ∧
    validateOptBool (some JVal.jnull) = Except.ok none ∧
    (∀ b, validateOptBool (some (JVal.jbool b)) = Except.ok (some b)) ∧
    validateOptBool (some (JVal.jstr "1")) = Except.ok (some true) ∧
    validateOptBool (some (JVal.jstr "0")) = Except.ok (some false) ∧
    validateOptBool (some (JVal.jstr "TRUE")) = Except.ok (some true) ∧
    validateOptBool (some (JVal.jnum 0)) = Except.ok (some false) ∧
    validateOptBool (some (JVal.jnum 1)) = Except.ok (some true) ∧
    (validateOptBool (some (JVal.jstr ""))).isOk = false ∧
    (validateOptBool (some (JVal.jstr "maybe"))).isOk = false ∧
    (validateOptBool (some (JVal.jnum 2))).isOk = false := by
  refine ⟨?_, rfl, rfl, ?_, rfl, rfl, rfl, rfl, rfl, rfl, rfl, rfl⟩
  · intro v
    refine ⟨?_, ?_, ?_, ?_, ?_, ?_⟩ <;>
      · cases hv : validateOptBool (some v) with
        | error m =>
          simp [parseRSVPData, List.lookup, hv, validateReqStr, validateOptStr,
            validateOptBool_none_eq, Except.map, Bind.bind, Except.bind, Functor.map, pure, Except.pure]
        | ok b =>
          simp [parseRSVPData, List.lookup, hv, validateReqStr, validateOptStr,
            validateOptBool_none_eq, Except.map, Bind.bind, Except.bind, Functor.map, pure, Except.pure]
  · intro b
    cases b <;> rfl

theorem bind_ok_iff {α β : Type} (x : Except String α) (f : α → Except String β) (b : β) :
    (x >>= f) = Except.ok b ↔ ∃ a, x = Except.ok a ∧ f a = Except.ok b := by
  cases x <;> simp [Bind.bind, Except.bind]

theorem map_ok_iff {α β : Type} (f : α → β) (x : Except String α) (b : β) :
    (f <$> x) = Except.ok b ↔ ∃ a, x = Except.ok a ∧ f a = b := by
  cases x <;> simp [Functor.map, Except.map]

theorem parseRSVPData_ok_iff (body : JBody) (data : RSVPData) :
    parseRSVPData body = Except.ok data ↔
      validateReqStr (body.lookup "full_name") = Except.ok data.full_name ∧
      validateOptStr (body.lookup "dietary_requirements") = Except.ok data.dietary_requirements ∧
      validateOptBool (body.lookup "rehearsal_dinner") = Except.ok data.rehearsal_dinner ∧
      validateOptBool (body.lookup "ceremony") = Except.ok data.ceremony ∧
      validateOptBool (body.lookup "brunch") = Except.ok data.brunch ∧
      validateOptStr (body.lookup "plus_one_name") = Except.ok data.plus_one_name ∧
      validateOptStr (body.lookup "plus_one_dietary_requirements")
        = Except.ok data.plus_one_dietary_requirements ∧
      validateOptBool (body.lookup "plus_one_rehearsal_dinner")
        = Except.ok data.plus_one_rehearsal_dinner ∧
      validateOptBool (body.lookup "plus_one_ceremony") = Except.ok data.plus_one_ceremony ∧
      validateOptBool (body.lookup "plus_one_brunch") = Except.ok data.plus_one_brunch := by
  constructor
  · intro h
    simp only [parseRSVPData, bind_ok_iff, map_ok_iff, pure, Except.pure,
      Except.ok.injEq] at h
    obtain ⟨fn, hfn, dr, hdr, rd, hrd, ce, hce, br, hbr, p1n, h6, p1d, h7,
      p1rd, h8, p1ce, h9, heq⟩ := h
    rcases heq with ⟨p1br, h10, heq⟩
    subst heq
    exact ⟨hfn, hdr, hrd, hce, hbr, h6, h7, h8, h9, h10⟩
  · rintro ⟨h1, h2, h3, h4, h5, h6, h7, h8, h9, h10⟩
    simp [parseRSVPData, h1, h2, h3, h4, h5, h6, h7, h8, h9, h10,
      Bind.bind, Except.bind, Functor.map, Except.map, pure, Except.pure]

/-- C2 counterexample: a whitespace-only full name is accepted, echoed
untrimmed in the success details, and appended untrimmed as the first cell
of the row — the claim says it must be trimmed and the request rejected. -/
theorem C2_counterexample :
    (handleRequest none (some "k") demoEnv demoBackend
        [("full_name", JVal.jstr "   ")] "T").response
      = Response.success "RSVP submitted successfully!"
          ⟨"   ", none, none, none, none, none, none, none, none, none⟩ ∧
    (handleRequest none (some "k") demoEnv demoBackend
        [("full_name", JVal.jstr "   ")] "T").appended
      = [["   ", "", "", "", "", "", "", "", "", "", "T"]] := by
  exact ⟨rfl, rfl⟩

/-- C2 (amended): `full_name` is required — a body without the key fails
pydantic validation with a 422 response and nothing is appended — but the
supplied value is never trimmed: whatever string arrives (including empty
or whitespace-only) is preserved verbatim in the parsed record. -/
theorem C2_full_name_required_untrimmed :
    (∀ env be body now, body.lookup "full_name" = none →
      (bodyPipeline env be body now).response = Response.httpError 422 "Field required" ∧
      (bodyPipeline env be body now).appended = []) ∧
    (∀ body data s, body.lookup "full_name" = some (JVal.jstr s) →
      parseRSVPData body = Except.ok data → data.full_name = s) := by
  constructor
  · intro env be body now h
    have hp : parseRSVPData body = Except.error "Field required" := by
      simp [parseRSVPData, h, validateReqStr, Bind.bind, Except.bind]
    constructor <;> simp [bodyPipeline, hp]
  · intro body data s h hp
    have h1 := ((parseRSVPData_ok_iff body data).mp hp).1
    rw [h] at h1
    simp only [validateReqStr, Except.ok.injEq] at h1
    exact h1.symm

/-- C2 witness: the empty body is rejected with nothing appended, and the
record parsed from an untrimmed name keeps it verbatim. -/
theorem C2_full_name_witness :
    (bodyPipeline demoEnv demoBackend [] "T").appended = [] ∧
    (⟨" Ann ", none, none, none, none, none, none, none, none, none⟩
        : RSVPData).full_name = " Ann " :=
  ⟨(C2_full_name_required_untrimmed.1 demoEnv demoBackend [] "T" rfl).2,
   C2_full_name_required_untrimmed.2 [("full_name", JVal.jstr " Ann ")]
     ⟨" Ann ", none, none, none, none, none, none, none, none, none⟩ " Ann " rfl rfl⟩

theorem bodyPipeline_congr (env : Env) (be : Backend) (b1 b2 : JBody) (now : String)
    (h : parseRSVPData b1 = parseRSVPData b2) :
    bodyPipeline env be b1 now = bodyPipeline env be b2 now := by
  unfold bodyPipeline
  rw [h]

/-- C10: two POST bodies that agree on the ten declared record fields parse
to equal records and produce identical outcomes (response, appended rows,
backend calls) whatever extra keys — timestamp, callback, spreadsheetId or
anything else — either of them carries. -/
theorem C10_extra_keys_irrelevant :
    ∀ b1 b2 : JBody, (∀ k, k ∈ declaredKeys → b1.lookup k = b2.lookup k) →
      parseRSVPData b1 = parseRSVPData b2 ∧
      ∀ validKey header env be now,
        handleRequest validKey header env be b1 now
          = handleRequest validKey header env be b2 now := by
  intro b1 b2 h
  have hp : parseRSVPData b1 = parseRSVPData b2 := by
    unfold parseRSVPData
    rw [h "full_name" (by simp [declaredKeys]),
        h "dietary_requirements" (by simp [declaredKeys]),
        h "rehearsal_dinner" (by simp [declaredKeys]),
        h "ceremony" (by simp [declaredKeys]),
        h "brunch" (by simp [declaredKeys]),
        h "plus_one_name" (by simp [declaredKeys]),
        h "plus_one_dietary_requirements" (by simp [declaredKeys]),
        h "plus_one_rehearsal_dinner" (by simp [declaredKeys]),
        h "plus_one_ceremony" (by simp [declaredKeys]),
        h "plus_one_brunch" (by simp [declaredKeys])]
  refine ⟨hp, ?_⟩
  intro validKey header env be now
  unfold handleRequest
  rw [bodyPipeline_congr env be b1 b2 now hp]

/-- C10 witness: two concrete bodies differing only in extra keys
(`timestamp` vs `callback` and `spreadsheetId`) give identical requests. -/
theorem C10_extra_keys_witness :
    parseRSVPData [("full_name", JVal.jstr "Jane"), ("timestamp", JVal.jstr "X")]
      = parseRSVPData [("full_name", JVal.jstr "Jane"),
          ("callback", JVal.jstr "cb"), ("spreadsheetId", JVal.jstr "abc123")] ∧
    handleRequest none (some "k") demoEnv demoBackend
        [("full_name", JVal.jstr "Jane"), ("timestamp", JVal.jstr "X")] "T"
      = handleRequest none (some "k") demoEnv demoBackend
          [("full_name", JVal.jstr "Jane"),
           ("callback", JVal.jstr "cb"), ("spreadsheetId", JVal.jstr "abc123")] "T" := by
  have h := C10_extra_keys_irrelevant
    [("full_name", JVal.jstr "Jane"), ("timestamp", JVal.jstr "X")]
    [("full_name", JVal.jstr "Jane"),
     ("callback", JVal.jstr "cb"), ("spreadsheetId", JVal.jstr "abc123")]
    (by decide)
  exact ⟨h.1, h.2 none (some "k") demoEnv demoBackend "T"⟩

theorem strLen_zero_iff (s : String) : s.length = 0 ↔ s = "" := by
  constructor
  · intro h
    cases s with
    | mk data =>
      have hd : data = [] := List.length_eq_zero.mp h
      rw [hd]
  · intro h
    rw [h]
    rfl

/-- C7 counterexample: a caller-supplied `timestamp` field is not used — the
appended row ends with the server-generated time, not the value the caller
sent. -/
theorem C7_counterexample :
    (handleRequest none (some "k") demoEnv demoBackend
        [("full_name", JVal.jstr "Jane"), ("timestamp", JVal.jstr "2001-01-01T00:00:00")]
        "2026-10-12T10:30:00").appended
      = [["Jane", "", "", "", "", "", "", "", "", "", "2026-10-12T10:30:00"]] ∧
    ("2001-01-01T00:00:00" : String) ≠ "2026-10-12T10:30:00" := by
  refine ⟨rfl, by decide⟩

/-- C7 (amended): the `RSVPData` model has no timestamp field, so a
caller-supplied `timestamp` key is ignored by parsing; the timestamp of
every appended row is the final column, generated server-side as
`datetime.utcnow().isoformat()` at row construction. -/
theorem C7_timestamp_server_generated :
    (∀ v body, parseRSVPData (("timestamp", v) :: body) = parseRSVPData body) ∧
    (∀ data now, (buildRow data now).getLast? = some now) ∧
    (∀ env be data now, (submitRSVP env be data now).appended = []
      ∨ (submitRSVP env be data now).appended = [buildRow data now]) := by
  refine ⟨?_, ?_, ?_⟩
  · intro v body
    simp [parseRSVPData, List.lookup]
  · intro data now
    rfl
  · intro env be data now
    rcases hc : (getGoogleClient env).1 with hint | client
    · left
      simp [submitRSVP, hc]
    · rcases ho : be.openByName client env.spreadsheetName with sheet | _ | msg
      · rcases hw : be.worksheet sheet env.worksheetName with ws | _ | msg2
        · rcases ha : be.appendRow ws (buildRow data now) with _ | msg3
          · right
            simp [submitRSVP, hc, ho, hw, ha]
          · left
            simp [submitRSVP, hc, ho, hw, ha]
        · left
          simp [submitRSVP, hc, ho, hw]
        · left
          simp [submitRSVP, hc, ho, hw]
      · left
        simp [submitRSVP, hc, ho]
      · left
        simp [submitRSVP, hc, ho]

/-- C9 counterexample: supplying a `callback` parameter changes nothing —
the response is the same plain structured JSON object produced without it,
served as `application/json`, not wrapped in `callback_name(...)` with a
script-executable content type. -/
theorem C9_counterexample :
    handleRequest none (some "k") demoEnv demoBackend
        [("full_name", JVal.jstr "Jane"), ("callback", JVal.jstr "cb")] "T"
      = handleRequest none (some "k") demoEnv demoBackend
          [("full_name", JVal.jstr "Jane")] "T" ∧
    responseContentType ((handleRequest none (some "k") demoEnv demoBackend
        [("full_name", JVal.jstr "Jane"), ("callback", JVal.jstr "cb")] "T").response)
      = "application/json" := by
  exact ⟨rfl, rfl⟩

/-- C9 (amended): the handler has no JSONP mode: a `callback` key in the
body is ignored entirely, and every response — success or error — is
rendered as plain JSON with content type `application/json`. -/
theorem C9_no_jsonp :
    (∀ v body validKey header env be now,
      handleRequest validKey header env be (("callback", v) :: body) now
        = handleRequest validKey header env be body now) ∧
    (∀ r, responseContentType r = "application/json") := by
  constructor
  · intro v body validKey header env be now
    have hp : parseRSVPData (("callback", v) :: body) = parseRSVPData body := by
      simp [parseRSVPData, List.lookup]
    unfold handleRequest
    rw [bodyPipeline_congr env be _ body now hp]
  · intro r
    rfl

/-- C8 counterexample: the sheet is opened by name only. On a backend where
the name lookup fails but an ID lookup would succeed, the request still
fails with 404 and the only lookup call made is `open` by the configured
name — no ID lookup is ever attempted, let alone preferred. -/
theorem C8_counterexample :
    nfBackend.openById 1 "any-id" = OpenRes.found 99 ∧
    (submitRSVP demoEnv nfBackend demoData "T").calls
      = [BCall.openName "RSVP Responses"] ∧
    (submitRSVP demoEnv nfBackend demoData "T").response
      = Response.httpError 404
          ("Spreadsheet " ++ q "RSVP Responses" ++ " not found. Check sharing and name.") := by
  exact ⟨rfl, rfl, rfl⟩

/-- C8 (amended): locating the target sheet uses exactly one strategy —
`client.open` with the configured spreadsheet display name — so the calls a
request makes are always a prefix of name-open, worksheet-open, append;
`open_by_key` (ID lookup) never occurs. -/
theorem C8_name_lookup_only :
    ∀ env be data now,
      (submitRSVP env be data now).calls = [] ∨
      (submitRSVP env be data now).calls = [BCall.openName env.spreadsheetName] ∨
      (submitRSVP env be data now).calls
        = [BCall.openName env.spreadsheetName, BCall.wsOpen env.worksheetName] ∨
      (submitRSVP env be data now).calls
        = [BCall.openName env.spreadsheetName, BCall.wsOpen env.worksheetName,
           BCall.append (buildRow data now)] := by
  intro env be data now
  rcases hc : (getGoogleClient env).1 with hint | client
  · left
    simp [submitRSVP, hc]
  · rcases ho : be.openByName client env.spreadsheetName with sheet | _ | msg
    · rcases hw : be.worksheet sheet env.worksheetName with ws | _ | msg2
      · rcases ha : be.appendRow ws (buildRow data now) with _ | msg3
        · right; right; right
          simp [submitRSVP, hc, ho, hw, ha]
        · right; right; right
          simp [submitRSVP, hc, ho, hw, ha]
      · right; right; left
        simp [submitRSVP, hc, ho, hw]
      · right; right; left
        simp [submitRSVP, hc, ho, hw]
    · right; left
      simp [submitRSVP, hc, ho]
    · right; left
      simp [submitRSVP, hc, ho]

/-- C6 counterexample: with no API key configured, a request that lacks the
`X-API-Key` header is still rejected with 403 by `APIKeyHeader
(auto_error=True)` before any processing — the claim says every request
would be processed regardless of the header. -/
theorem C6_counterexample :
    handleRequest none none demoEnv demoBackend [("full_name", JVal.jstr "Jane")] "T"
      = { response := Response.httpError 403 "Not authenticated",
          appended := [], calls := [], authCalls := [] } := by
  exact rfl

/-- C6 (amended): requests with a missing or empty `X-API-Key` header are
always rejected 403 "Not authenticated" by the header extractor, before the
key check and before body processing, even when no key is configured; when
a key is configured, a non-matching nonempty header is rejected 403
"Invalid API key" with nothing appended, and a matching one proceeds to the
body; when no key is configured, any nonempty header value proceeds. -/
theorem C6_api_key_gate :
    (∀ validKey env be body now,
      handleRequest validKey none env be body now
        = { response := Response.httpError 403 "Not authenticated",
            appended := [], calls := [], authCalls := [] }) ∧
    (∀ validKey env be body now,
      handleRequest validKey (some "") env be body now
        = { response := Response.httpError 403 "Not authenticated",
            appended := [], calls := [], authCalls := [] }) ∧
    (∀ k v env be body now, v ≠ "" → v ≠ k →
      handleRequest (some k) (some v) env be body now
        = { response := Response.httpError 403 "Invalid API key",
            appended := [], calls := [], authCalls := [] }) ∧
    (∀ k env be body now, k ≠ "" →
      handleRequest (some k) (some k) env be body now = bodyPipeline env be body now) ∧
    (∀ v env be body now, v ≠ "" →
      handleRequest none (some v) env be body now = bodyPipeline env be body now) := by
  refine ⟨?_, ?_, ?_, ?_, ?_⟩
  · intro validKey env be body now
    rfl
  · intro validKey env be body now
    rfl
  · intro k v env be body now hv hk
    have hlen : ¬ v.length = 0 := fun h => hv ((strLen_zero_iff v).mp h)
    simp [handleRequest, hlen, hk]
  · intro k env be body now hk
    have hlen : ¬ k.length = 0 := fun h => hk ((strLen_zero_iff k).mp h)
    simp [handleRequest, hlen]
  · intro v env be body now hv
    have hlen : ¬ v.length = 0 := fun h => hv ((strLen_zero_iff v).mp h)
    simp [handleRequest, hlen]

/-- C6 witness: a wrong key against a configured key is rejected with
nothing appended, and with no configured key a header-carrying request runs
the body pipeline. -/
theorem C6_api_key_gate_witness :
    handleRequest (some "secret") (some "wrong") demoEnv demoBackend [] "T"
      = { response := Response.httpError 403 "Invalid API key",
          appended := [], calls := [], authCalls := [] } ∧
    handleRequest none (some "anything") demoEnv demoBackend [] "T"
      = bodyPipeline demoEnv demoBackend [] "T" :=
  ⟨C6_api_key_gate.2.2.1 "secret" "wrong" demoEnv demoBackend [] "T"
      (by decide) (by decide),
   C6_api_key_gate.2.2.2.2 "anything" demoEnv demoBackend [] "T" (by decide)⟩

/-- C5 counterexample: in `env5` the explicit configured path "p" exists but
authenticating with it fails, and the conventional default local file
exists and would authenticate as client 1 — yet the code never attempts the
default file, jumping straight to ADC (client 2): strategy (2) is skipped
even though strategy (1) failed, contradicting the claimed chain in which
each strategy is attempted when the previous one fails. -/
theorem C5_counterexample :
    env5.googleAppCreds = some "p" ∧
    env5.isFile "p" = true ∧
    env5.saAuth "p" = none ∧
    env5.isFile DEFAULT_SERVICE_ACCOUNT_FILE = true ∧
    env5.saAuth DEFAULT_SERVICE_ACCOUNT_FILE = some 1 ∧
    getGoogleClient env5 = (Except.ok 2, [AuthAttempt.fileAuth "p", AuthAttempt.adc]) := by
  exact ⟨rfl, rfl, rfl, rfl, rfl, rfl⟩

/-- C5 (amended): path resolution picks the explicit configured path if it
is truthy and an existing file, else the default local file if present,
else nothing; at most one file-based authentication attempt is made, with
the resolved path only; on its absence or failure ADC is tried; and when
the file attempt (if any) and ADC have both failed the request fails with
the diagnostic `authHint` naming the remediation steps (where to mount the
file and that `GOOGLE_APPLICATION_CREDENTIALS` must be set). -/
theorem C5_credential_chain :
    (∀ env p, pyOrOpt env.googleAppCreds env.serviceAccountFileVar = some p → p ≠ "" →
      env.isFile p = true → resolveCredentialsPath env = some p) ∧
    (∀ env, pyTruthy (pyOrOpt env.googleAppCreds env.serviceAccountFileVar) = false →
      env.isFile DEFAULT_SERVICE_ACCOUNT_FILE = true →
      resolveCredentialsPath env = some DEFAULT_SERVICE_ACCOUNT_FILE) ∧
    (∀ env p c, resolveCredentialsPath env = some p → env.saAuth p = some c →
      getGoogleClient env = (Except.ok c, [AuthAttempt.fileAuth p])) ∧
    (∀ env p c, resolveCredentialsPath env = some p → env.saAuth p = none →
      env.adcAuth = some c →
      getGoogleClient env = (Except.ok c, [AuthAttempt.fileAuth p, AuthAttempt.adc])) ∧
    (∀ env c, resolveCredentialsPath env = none → env.adcAuth = some c →
      getGoogleClient env = (Except.ok c, [AuthAttempt.adc])) ∧
    (∀ env p, resolveCredentialsPath env = some p → env.saAuth p = none →
      env.adcAuth = none →
      getGoogleClient env = (Except.error authHint, [AuthAttempt.fileAuth p, AuthAttempt.adc])) ∧
    (∀ env, resolveCredentialsPath env = none → env.adcAuth = none →
      getGoogleClient env = (Except.error authHint, [AuthAttempt.adc])) := by
  refine ⟨?_, ?_, ?_, ?_, ?_, ?_, ?_⟩
  · intro env p hpath hp hfile
    have hlen : p.length ≠ 0 := fun h => hp ((strLen_zero_iff p).mp h)
    simp [resolveCredentialsPath, hpath, pyTruthy, hfile, hlen]
  · intro env hfalsy hfile
    simp [resolveCredentialsPath, hfalsy, hfile]
  · intro env p c hres hsa
    simp [getGoogleClient, hres, hsa]
  · intro env p c hres hsa hadc
    simp [getGoogleClient, hres, hsa, hadc]
  · intro env c hres hadc
    simp [getGoogleClient, hres, hadc]
  · intro env p hres hsa hadc
    simp [getGoogleClient, hres, hsa, hadc]
  · intro env hres hadc
    simp [getGoogleClient, hres, hadc]

/-- C5 witness: resolution and fallback instantiated on `env5`: the
resolved explicit path fails, ADC is attempted and returns client 2. -/
theorem C5_credential_chain_witness :
    getGoogleClient env5 = (Except.ok 2, [AuthAttempt.fileAuth "p", AuthAttempt.adc]) :=
  C5_credential_chain.2.2.2.1 env5 "p" 2 rfl rfl rfl

theorem submitRSVP_response_cases (env : Env) (be : Backend) (data : RSVPData) (now : String) :
    (submitRSVP env be data now).response
      = Response.success "RSVP submitted successfully!" data ∨
    ∃ s t, (submitRSVP env be data now).response = Response.httpError s t ∧
      (s = 404 ∨ s = 500) := by
  rcases hc : (getGoogleClient env).1 with hint | client
  · right
    exact ⟨500, httpExcStr 500 ("Google Sheets authentication failed. " ++ hint),
      by simp [submitRSVP, hc], Or.inr rfl⟩
  · rcases ho : be.openByName client env.spreadsheetName with sheet | _ | msg
    · rcases hw : be.worksheet sheet env.worksheetName with ws | _ | msg2
      · rcases ha : be.appendRow ws (buildRow data now) with _ | msg3
        · left
          simp [submitRSVP, hc, ho, hw, ha]
        · right
          exact ⟨500, msg3, by simp [submitRSVP, hc, ho, hw, ha], Or.inr rfl⟩
      · right
        exact ⟨404, s!"Worksheet {q env.worksheetName} not found in spreadsheet.",
          by simp [submitRSVP, hc, ho, hw], Or.inl rfl⟩
      · right
        exact ⟨500, msg2, by simp [submitRSVP, hc, ho, hw], Or.inr rfl⟩
    · right
      exact ⟨404, s!"Spreadsheet {q env.spreadsheetName} not found. Check sharing and name.",
        by simp [submitRSVP, hc, ho], Or.inl rfl⟩
    · right
      exact ⟨500, msg, by simp [submitRSVP, hc, ho], Or.inr rfl⟩

theorem bodyPipeline_response_cases (env : Env) (be : Backend) (body : JBody) (now : String) :
    (∃ d, (bodyPipeline env be body now).response
      = Response.success "RSVP submitted successfully!" d) ∨
    (∃ s t, (bodyPipeline env be body now).response = Response.httpError s t ∧
      (s = 404 ∨ s = 422 ∨ s = 500)) := by
  rcases hp : parseRSVPData body with m | data
  · right
    exact ⟨422, m, by simp [bodyPipeline, hp], Or.inr (Or.inl rfl)⟩
  · have hb : bodyPipeline env be body now = submitRSVP env be data now := by
      simp [bodyPipeline, hp]
    rw [hb]
    rcases submitRSVP_response_cases env be data now with h | ⟨s, t, h, hs⟩
    · left
      exact ⟨data, h⟩
    · right
      refine ⟨s, t, h, ?_⟩
      rcases hs with h4 | h5
      · exact Or.inl h4
      · exact Or.inr (Or.inr h5)

/-- C1 (amended): every request produces either the success body
`{"success": true, "message": ..., "details": ...}` or a FastAPI
`HTTPException` — an HTTP error status (403, 404, 422 or 500) whose body is
`{"detail": <string>}` and never includes `details`; no raw exception
escapes the handler. Contrary to the claim, failures are HTTP protocol
errors, not a 200-style `{success: false, error}` body. -/
theorem C1_errors_structured_as_http :
    ∀ validKey header env be body now,
      (∃ d, (handleRequest validKey header env be body now).response
        = Response.success "RSVP submitted successfully!" d) ∨
      (∃ s t, (handleRequest validKey header env be body now).response
        = Response.httpError s t ∧ (s = 403 ∨ s = 404 ∨ s = 422 ∨ s = 500)) := by
  intro validKey header env be body now
  rcases header with _ | v
  · right
    exact ⟨403, "Not authenticated", rfl, Or.inl rfl⟩
  · by_cases hv : v.length = 0
    · right
      refine ⟨403, "Not authenticated", ?_, Or.inl rfl⟩
      simp [handleRequest, hv]
    · have hgate : handleRequest validKey (some v) env be body now
          = bodyPipeline env be body now ∨
        handleRequest validKey (some v) env be body now
          = { response := Response.httpError 403 "Invalid API key",
              appended := [], calls := [], authCalls := [] } := by
        cases validKey with
        | none =>
          left
          simp [handleRequest, hv]
        | some k =>
          by_cases hk : v ≠ k
          · right
            simp [handleRequest, hv, hk]
          · left
            simp [handleRequest, hv, hk]
      rcases hgate with hgate | hgate
      · rw [hgate]
        rcases bodyPipeline_response_cases env be body now with h | ⟨s, t, h, hs⟩
        · left
          exact h
        · right
          refine ⟨s, t, h, ?_⟩
          rcases hs with h4 | h5
          · exact Or.inr (Or.inl h4)
          · rcases h5 with h5 | h5
            · exact Or.inr (Or.inr (Or.inl h5))
            · exact Or.inr (Or.inr (Or.inr h5))
      · right
        rw [hgate]
        exact ⟨403, "Invalid API key", rfl, Or.inl rfl⟩

/-- C1 counterexample: a spreadsheet-not-found failure is surfaced as an
HTTP 404 `HTTPException` whose body is `{"detail": ...}` — an HTTP protocol
error — not as a `{success: false, error: ...}` JSON body. -/
theorem C1_counterexample :
    (handleRequest none (some "k") demoEnv nfBackend
        [("full_name", JVal.jstr "Jane")] "T").response
      = Response.httpError 404
          ("Spreadsheet " ++ q "RSVP Responses" ++ " not found. Check sharing and name.") := by
  exact rfl
